import Mathlib

/-!
Verification of the deterministic hourly dispatch core of the microgrid
simulator (`src/script.js`).  The battery model, the hourly dispatch
algorithm, the two dispatch policies and the day-simulation driver are
embedded as pure functions over `ℚ`.  JavaScript's `Math.sqrt` (used only
to split the round-trip efficiency) is not rational-valued, so every
definition that needs it takes an abstract square-root function
`sq : ℚ → ℚ`; theorems that depend on its behaviour assume only facts
true of the real square root on the clamped domain `[0.01, 0.999]`
(positivity), and concrete evaluations pick scenarios whose traces are
independent of the square root's value.
-/

namespace Microgrid

/-- `clamp(value, min, max) = Math.max(min, Math.min(max, value))` from the source. -/
def clamp (value lo hi : ℚ) : ℚ := max lo (min hi value)

/-- `CONFIG.PEAK_HOURS = [17, 18, 19, 20, 21, 22]` from the source. -/
def PEAK_HOURS : List ℕ := [17, 18, 19, 20, 21, 22]

/-- `CONFIG.PEAK_HOURS.includes(hour)`. -/
def isPeakHour (hour : ℕ) : Bool := PEAK_HOURS.contains hour

/-- The battery record produced by `createBatteryModel`. -/
structure Battery where
  capacityKwh : ℚ
  socKwh : ℚ
  minSocKwh : ℚ
  etaC : ℚ
  etaD : ℚ
  maxChargeKw : ℚ
  maxDischargeKw : ℚ
deriving Repr, DecidableEq

/-- The parameter record accepted by `createBatteryModel`. -/
structure BatteryParams where
  capacityKwh : ℚ
  initialSocPct : ℚ
  minSocPct : ℚ
  roundTripEfficiency : ℚ
  maxChargeKw : ℚ
  maxDischargeKw : ℚ
deriving Repr, DecidableEq

/-- `createBatteryModel(params)` from the source.  `sq` stands for
`Math.sqrt`.  Note that the source performs no validation whatsoever:
the efficiency is clamped into `[0.01, 0.999]` and the two SOC values
are clamped into `[0, capacityKwh]`; nothing is rejected. -/
def createBatteryModel (sq : ℚ → ℚ) (p : BatteryParams) : Battery :=
  let eta := max 0.01 (min 0.999 p.roundTripEfficiency)
  let etaC := sq eta
  let etaD := sq eta
  let initialSocKwh := clamp ((p.initialSocPct / 100) * p.capacityKwh) 0 p.capacityKwh
  let minSocKwh := clamp ((p.minSocPct / 100) * p.capacityKwh) 0 p.capacityKwh
  { capacityKwh := p.capacityKwh
    socKwh := initialSocKwh
    minSocKwh := minSocKwh
    etaC := etaC
    etaD := etaD
    maxChargeKw := p.maxChargeKw
    maxDischargeKw := p.maxDischargeKw }

/-- `batteryCharge(batt, chargeKw)`: returns the pair
(`actualKw`, updated battery). -/
def batteryCharge (batt : Battery) (chargeKw : ℚ) : ℚ × Battery :=
  let headroomKwh := batt.capacityKwh - batt.socKwh
  let maxByCapacityKw := headroomKwh / batt.etaC
  let actualKw := clamp chargeKw 0 (min batt.maxChargeKw maxByCapacityKw)
  (actualKw, { batt with socKwh := batt.socKwh + actualKw * batt.etaC })

/-- `batteryDischargeToLoad(batt, demandKw)`: returns the pair
(`actualKw`, updated battery). -/
def batteryDischargeToLoad (batt : Battery) (demandKw : ℚ) : ℚ × Battery :=
  let availableKwh := max 0 (batt.socKwh - batt.minSocKwh)
  let maxDeliverableKw := availableKwh * batt.etaD
  let actualKw := clamp demandKw 0 (min batt.maxDischargeKw maxDeliverableKw)
  (actualKw, { batt with socKwh := batt.socKwh - actualKw / batt.etaD })

/-- One entry of the per-day input array built by
`buildDayInputsForCurrentConfig` (the fields the core reads). -/
structure HourInput where
  hour : ℕ
  solarGenKw : ℚ
  loadKw : ℚ
  tariff : ℚ
deriving Repr, DecidableEq

/-- The inputs record destructured at the top of `dispatchHour`. -/
structure DispatchInputs where
  hour : ℕ
  solarGenKw : ℚ
  loadKw : ℚ
  tariff : ℚ
  gridLimitKw : ℚ
  dieselPrice : ℚ
  co2GridPerKwh : ℚ
  co2DieselPerKwh : ℚ
deriving Repr, DecidableEq

/-- The `HourFlows` record produced by `dispatchHour`. -/
structure HourFlows where
  hour : ℕ
  solarGenKw : ℚ
  loadKw : ℚ
  solarToLoadKw : ℚ
  solarToBattKw : ℚ
  battToLoadKw : ℚ
  gridToLoadKw : ℚ
  gridToBattKw : ℚ
  dieselToLoadKw : ℚ
  gridImportKw : ℚ
  unmetLoadKw : ℚ
  socKwh : ℚ
  socPct : ℚ
  cost : ℚ
  co2Kg : ℚ
  tariff : ℚ
  isPeak : Bool
deriving Repr, DecidableEq

/-- The context record `{ hour, isPeak, state, inputs, forecast }` passed to
policy callbacks (`state.battery` flattened to `battery`; the forecast's
`dayInputs` array is the function `forecast`). -/
structure PolicyCtx where
  hour : ℕ
  isPeak : Bool
  battery : Battery
  inputs : DispatchInputs
  forecast : ℕ → HourInput

/-- A dispatch policy: the three callbacks every policy object exposes. -/
structure Policy where
  allowDischarge : PolicyCtx → Bool
  allowGridCharge : PolicyCtx → Bool
  desiredGridChargeKw : PolicyCtx → ℚ

/-- `dispatchHour(inputs, state, policy, forecast)` from the source,
returning the `HourFlows` record together with the battery state after the
hour (the source mutates `state.battery` in place). -/
def dispatchHour (inputs : DispatchInputs) (batt : Battery) (policy : Policy)
    (forecast : ℕ → HourInput) : HourFlows × Battery :=
  let isPeak := isPeakHour inputs.hour
  let remainingLoad0 := max 0 inputs.loadKw
  let remainingSolar0 := max 0 inputs.solarGenKw
  -- 1) Solar -> Load
  let solarToLoadKw := min remainingSolar0 remainingLoad0
  let remainingSolar1 := remainingSolar0 - solarToLoadKw
  let remainingLoad1 := remainingLoad0 - solarToLoadKw
  -- 2) Excess Solar -> Battery charge
  let chargeRes := if 0 < remainingSolar1 then batteryCharge batt remainingSolar1 else (0, batt)
  let solarToBattKw := chargeRes.1
  let b1 := chargeRes.2
  -- 3) Battery -> Load (policy can restrict discharge)
  let allowD := policy.allowDischarge
    { hour := inputs.hour, isPeak := isPeak, battery := b1, inputs := inputs, forecast := forecast }
  let dischRes := if 0 < remainingLoad1 ∧ allowD = true
    then batteryDischargeToLoad b1 remainingLoad1 else (0, b1)
  let battToLoadKw := dischRes.1
  let b2 := dischRes.2
  let remainingLoad2 := remainingLoad1 - battToLoadKw
  -- 4) Grid -> Remaining load (up to grid limit)
  let gridToLoadKw0 := if 0 < remainingLoad2 then min remainingLoad2 inputs.gridLimitKw else 0
  let remainingLoad3 := remainingLoad2 - gridToLoadKw0
  -- 4b) Grid tie-in requirement: minimum 0.5 kW grid draw during peak
  let gridToLoadKw := if isPeak = true ∧ gridToLoadKw0 < 0.5 then 0.5 else gridToLoadKw0
  -- 5) Diesel -> Remaining
  let dieselToLoadKw := if 0 < remainingLoad3 then remainingLoad3 else 0
  let unmetLoadKw := if 0 < remainingLoad3 then 0 else remainingLoad3
  -- Optional: policy may grid-charge battery
  let ctx2 : PolicyCtx :=
    { hour := inputs.hour, isPeak := isPeak, battery := b2, inputs := inputs, forecast := forecast }
  let gridChargeRes :=
    if policy.allowGridCharge ctx2 = true then
      let gridHeadroom := max 0 (inputs.gridLimitKw - gridToLoadKw)
      if 0 < gridHeadroom then
        batteryCharge b2 (min gridHeadroom (max 0 (policy.desiredGridChargeKw ctx2)))
      else (0, b2)
    else (0, b2)
  let gridToBattKw := gridChargeRes.1
  let b3 := gridChargeRes.2
  let gridImportKw := gridToLoadKw + gridToBattKw
  ({ hour := inputs.hour
     solarGenKw := remainingSolar0
     loadKw := remainingLoad0
     solarToLoadKw := solarToLoadKw
     solarToBattKw := solarToBattKw
     battToLoadKw := battToLoadKw
     gridToLoadKw := gridToLoadKw
     gridToBattKw := gridToBattKw
     dieselToLoadKw := dieselToLoadKw
     gridImportKw := gridImportKw
     unmetLoadKw := unmetLoadKw
     socKwh := b3.socKwh
     socPct := if 0 < b3.capacityKwh then b3.socKwh / b3.capacityKwh * 100 else 0
     cost := gridImportKw * inputs.tariff + dieselToLoadKw * inputs.dieselPrice
     co2Kg := gridImportKw * inputs.co2GridPerKwh + dieselToLoadKw * inputs.co2DieselPerKwh
     tariff := inputs.tariff
     isPeak := isPeak }, b3)

/-- The configuration record consumed by `simulateDay` and the policies. -/
structure Config where
  baseGridPrice : ℚ
  peakFactor : ℚ
  dieselPrice : ℚ
  gridLimitKw : ℚ
  co2GridPerKwh : ℚ
  co2DieselPerKwh : ℚ
  batteryCapacityKwh : ℚ
  initialSocPct : ℚ
  minSocPct : ℚ
  roundTripEfficiency : ℚ
  maxChargeKw : ℚ
  maxDischargeKw : ℚ
deriving Repr, DecidableEq

/-- The battery parameters `simulateDay` passes to `createBatteryModel`. -/
def batteryParamsOfConfig (config : Config) : BatteryParams :=
  { capacityKwh := config.batteryCapacityKwh
    initialSocPct := config.initialSocPct
    minSocPct := config.minSocPct
    roundTripEfficiency := config.roundTripEfficiency
    maxChargeKw := config.maxChargeKw
    maxDischargeKw := config.maxDischargeKw }

/-- The per-hour inputs record `simulateDay` passes to `dispatchHour`. -/
def mkDispatchInputs (inp : HourInput) (config : Config) : DispatchInputs :=
  { hour := inp.hour
    solarGenKw := inp.solarGenKw
    loadKw := inp.loadKw
    tariff := inp.tariff
    gridLimitKw := config.gridLimitKw
    dieselPrice := config.dieselPrice
    co2GridPerKwh := config.co2GridPerKwh
    co2DieselPerKwh := config.co2DieselPerKwh }

/-- The loop body of `simulateDay`: starting at hour index `i`, run `n`
dispatch calls threading the battery state, collecting the hourly flows. -/
def simulateFrom (dayInputs : ℕ → HourInput) (config : Config) (policy : Policy) :
    ℕ → ℕ → Battery → List HourFlows
  | _, 0, _ => []
  | i, n + 1, b =>
      let r := dispatchHour (mkDispatchInputs (dayInputs i) config) b policy dayInputs
      r.1 :: simulateFrom dayInputs config policy (i + 1) n r.2

/-- The accumulated totals of a day simulation. -/
structure Totals where
  cost : ℚ
  gridKwh : ℚ
  dieselKwh : ℚ
  solarToLoadKwh : ℚ
  solarToBattKwh : ℚ
  battToLoadKwh : ℚ
  co2Kg : ℚ
deriving Repr, DecidableEq

/-- The totals accumulated over the hourly trace (the source adds the same
seven fields once per loop iteration). -/
def totalsOf (hourly : List HourFlows) : Totals :=
  { cost := (hourly.map fun f => f.cost).sum
    gridKwh := (hourly.map fun f => f.gridImportKw).sum
    dieselKwh := (hourly.map fun f => f.dieselToLoadKw).sum
    solarToLoadKwh := (hourly.map fun f => f.solarToLoadKw).sum
    solarToBattKwh := (hourly.map fun f => f.solarToBattKw).sum
    battToLoadKwh := (hourly.map fun f => f.battToLoadKw).sum
    co2Kg := (hourly.map fun f => f.co2Kg).sum }

/-- The result record of `simulateDay`. -/
structure DaySimulation where
  hourly : List HourFlows
  totals : Totals

/-- `simulateDay(dayInputs, config, policyFactory)` from the source. -/
def simulateDay (dayInputs : ℕ → HourInput) (config : Config) (policy : Policy)
    (sq : ℚ → ℚ) : DaySimulation :=
  let b0 := createBatteryModel sq (batteryParamsOfConfig config)
  let hourly := simulateFrom dayInputs config policy 0 24 b0
  { hourly := hourly, totals := totalsOf hourly }

/-- `createBaselinePolicy()` from the source. -/
def createBaselinePolicy : Policy :=
  { allowDischarge := fun _ => true
    allowGridCharge := fun _ => false
    desiredGridChargeKw := fun _ => 0 }

/-- `totalDailyDeficitKwh()` from `createSmartPolicy`. -/
def totalDailyDeficitKwh (dayInputs : ℕ → HourInput) : ℚ :=
  Finset.sum (Finset.range 24) fun i =>
    max 0 ((dayInputs i).loadKw - (dayInputs i).solarGenKw)

/-- `expectedPeakDeficitKwhFrom(hourIndex)` from `createSmartPolicy`:
the forecasted deficit summed over the peak loop indices from `hourIndex`
to 23. -/
def expectedPeakDeficitKwhFrom (dayInputs : ℕ → HourInput) (hourIndex : ℕ) : ℚ :=
  Finset.sum (Finset.range 24) fun i =>
    if hourIndex ≤ i ∧ isPeakHour i = true then
      max 0 ((dayInputs i).loadKw - (dayInputs i).solarGenKw)
    else 0

/-- `expectedDieselRiskKwhFrom(hourIndex)` from `createSmartPolicy`:
forecasted deficit exceeding the grid limit over the peak loop indices
from `hourIndex` to 23. -/
def expectedDieselRiskKwhFrom (dayInputs : ℕ → HourInput) (config : Config)
    (hourIndex : ℕ) : ℚ :=
  Finset.sum (Finset.range 24) fun i =>
    if hourIndex ≤ i ∧ isPeakHour i = true then
      max 0 (max 0 ((dayInputs i).loadKw - (dayInputs i).solarGenKw) - config.gridLimitKw)
    else 0

/-- `createSmartPolicy(dayInputs, config)` from the source. -/
def createSmartPolicy (dayInputs : ℕ → HourInput) (config : Config) : Policy :=
  let offPeakTariff := config.baseGridPrice
  let peakTariff := config.baseGridPrice * config.peakFactor
  { allowDischarge := fun ctx =>
      if ctx.inputs.loadKw > ctx.inputs.solarGenKw then true
      else if ctx.isPeak = true then true
      else false
    allowGridCharge := fun ctx =>
      if ctx.isPeak = true then false
      else if ¬ (0.5 < totalDailyDeficitKwh dayInputs) then false
      else if ctx.inputs.tariff > offPeakTariff + 0.01 then false
      else true
    desiredGridChargeKw := fun ctx =>
      if ¬ (0.5 < totalDailyDeficitKwh dayInputs) then 0
      else
        let remainingPeakDeficit := expectedPeakDeficitKwhFrom dayInputs (ctx.hour + 1)
        let dieselRisk := expectedDieselRiskKwhFrom dayInputs config (ctx.hour + 1)
        let targetKwh := clamp (remainingPeakDeficit * 0.6 + dieselRisk * 0.8) 0
          (ctx.battery.capacityKwh * 0.9)
        let needKwh := max 0 (targetKwh - ctx.battery.socKwh)
        let priceGap := peakTariff - ctx.inputs.tariff
        if priceGap < 0.5 then 0
        else min needKwh ctx.battery.maxChargeKw }

/-- The formula claim C7 attributes to the smart policy, written from the
spec's words for comparison with the source definition: target SOC
`clamp(0.6 * remaining peak deficit from this hour onward +
0.8 * diesel risk from this hour onward, 0, 0.9 * capacity)`, returning
`min(targetKwh - currentSocKwh, maxChargeRate)`, with 0 when the
peak-vs-current tariff gap is below the 0.5 threshold or the day has no
real deficit. -/
def desiredGridChargeKwClaimed (dayInputs : ℕ → HourInput) (config : Config)
    (ctx : PolicyCtx) : ℚ :=
  if ¬ (0.5 < totalDailyDeficitKwh dayInputs) then 0
  else if config.baseGridPrice * config.peakFactor - ctx.inputs.tariff < 0.5 then 0
  else
    let targetKwh := clamp
      (0.6 * expectedPeakDeficitKwhFrom dayInputs ctx.hour +
        0.8 * expectedDieselRiskKwhFrom dayInputs config ctx.hour) 0
      (0.9 * ctx.battery.capacityKwh)
    min (targetKwh - ctx.battery.socKwh) ctx.battery.maxChargeKw

/-- The amended form of claim C7, matching the source: the peak deficit and
diesel risk are summed from the NEXT hour onward (`hour + 1`), and the
requested power is `min(max(0, targetKwh - currentSocKwh), maxChargeRate)`
(the need is floored at 0 before the rate cap). -/
def desiredGridChargeKwAmended (dayInputs : ℕ → HourInput) (config : Config)
    (ctx : PolicyCtx) : ℚ :=
  if ¬ (0.5 < totalDailyDeficitKwh dayInputs) then 0
  else if config.baseGridPrice * config.peakFactor - ctx.inputs.tariff < 0.5 then 0
  else
    let targetKwh := clamp
      (expectedPeakDeficitKwhFrom dayInputs (ctx.hour + 1) * 0.6 +
        expectedDieselRiskKwhFrom dayInputs config (ctx.hour + 1) * 0.8) 0
      (ctx.battery.capacityKwh * 0.9)
    min (max 0 (targetKwh - ctx.battery.socKwh)) ctx.battery.maxChargeKw

/-- Validity of a battery state, following the data-model invariants of the
spec: positive efficiencies and an SOC within `[minSocKwh, capacityKwh]`. -/
def Battery.Wf (b : Battery) : Prop :=
  0 < b.etaC ∧ 0 < b.etaD ∧ b.minSocKwh ≤ b.socKwh ∧ b.socKwh ≤ b.capacityKwh

/-! ## Concrete scenario data used by witnesses and counterexamples -/

/-- A placeholder `HourFlows` record used as the default of `List.getD`. -/
def defaultFlows : HourFlows :=
  { hour := 0, solarGenKw := 0, loadKw := 0, solarToLoadKw := 0, solarToBattKw := 0
    battToLoadKw := 0, gridToLoadKw := 0, gridToBattKw := 0, dieselToLoadKw := 0
    gridImportKw := 0, unmetLoadKw := 0, socKwh := 0, socPct := 0, cost := 0
    co2Kg := 0, tariff := 0, isPeak := false }

/-- A concrete stand-in for `Math.sqrt`, used only in closed evaluations whose
traces are independent of the square root's value. -/
def sqHalf : ℚ → ℚ := fun _ => 1 / 2

/-- An idle day: zero solar, zero load, flat tariff of 10. -/
def idleDay : ℕ → HourInput := fun i =>
  { hour := i, solarGenKw := 0, loadKw := 0, tariff := 10 }

/-- A configuration whose initial SOC percentage (0) is below its minimum SOC
percentage (10): `createBatteryModel` starts the battery below the floor. -/
def cfgBelowFloor : Config :=
  { baseGridPrice := 10, peakFactor := 1.5, dieselPrice := 25, gridLimitKw := 5
    co2GridPerKwh := 1/2, co2DieselPerKwh := 4/5, batteryCapacityKwh := 10
    initialSocPct := 0, minSocPct := 10, roundTripEfficiency := 9/10
    maxChargeKw := 5, maxDischargeKw := 5 }

/-- A well-formed configuration used by witnesses. -/
def cfgValid : Config :=
  { baseGridPrice := 10, peakFactor := 1.5, dieselPrice := 25, gridLimitKw := 5
    co2GridPerKwh := 1/2, co2DieselPerKwh := 4/5, batteryCapacityKwh := 10
    initialSocPct := 50, minSocPct := 10, roundTripEfficiency := 9/10
    maxChargeKw := 5, maxDischargeKw := 5 }

/-- A concrete battery state sitting exactly at its minimum-SOC floor. -/
def battFloor : Battery :=
  { capacityKwh := 10, socKwh := 2, minSocKwh := 2, etaC := 1/2, etaD := 1/2
    maxChargeKw := 5, maxDischargeKw := 5 }

/-- Dispatch inputs with a NEGATIVE grid limit (and a 1 kW load that solar
and the floored battery cannot cover). -/
def negLimitInputs : DispatchInputs :=
  { hour := 0, solarGenKw := 0, loadKw := 1, tariff := 10, gridLimitKw := -1
    dieselPrice := 25, co2GridPerKwh := 1/2, co2DieselPerKwh := 4/5 }

/-- An invalid battery configuration: negative capacity, round-trip
efficiency outside (0,1], minimum SOC percentage above 100. -/
def invalidParams : BatteryParams :=
  { capacityKwh := -5, initialSocPct := 50, minSocPct := 150
    roundTripEfficiency := 2, maxChargeKw := 5, maxDischargeKw := 5 }

/-- A day whose only deficit (5 kWh) sits at the off-peak hour 0, so the
forecasted peak-hour deficit is zero from every index. -/
def deficitDay : ℕ → HourInput := fun i =>
  if i = 0 then { hour := 0, solarGenKw := 0, loadKw := 5, tariff := 10 }
  else { hour := i, solarGenKw := 0, loadKw := 0, tariff := 10 }

/-- A policy context at off-peak hour 1 whose battery already holds more
energy (5 kWh) than the zero target SOC the smart heuristic computes. -/
def ctxHalfFull : PolicyCtx :=
  { hour := 1, isPeak := false
    battery :=
      { capacityKwh := 10, socKwh := 5, minSocKwh := 1, etaC := 1/2, etaD := 1/2
        maxChargeKw := 5, maxDischargeKw := 5 }
    inputs := mkDispatchInputs (deficitDay 1) cfgValid
    forecast := deficitDay }

/-- A day with solar equal to load (1 kW) at every hour: zero deficit. -/
def flatDay : ℕ → HourInput := fun i =>
  { hour := i, solarGenKw := 1, loadKw := 1, tariff := 10 }

/-- The blackout day of the spec scenario: zero solar, constant 2 kW load,
flat tariff of 10. -/
def blackoutDay : ℕ → HourInput := fun i =>
  { hour := i, solarGenKw := 0, loadKw := 2, tariff := 10 }

/-- The blackout-scenario configuration: 10 kWh battery, initial SOC 20%
equal to the minimum-SOC floor, 5 kW grid limit, flat tariff of 10
(`peakFactor = 1`).  Efficiency, rate limits, diesel price and CO2 factors
are left as parameters. -/
def cfgBlackout (rtEff mc md dp cg cd : ℚ) : Config :=
  { baseGridPrice := 10, peakFactor := 1, dieselPrice := dp, gridLimitKw := 5
    co2GridPerKwh := cg, co2DieselPerKwh := cd, batteryCapacityKwh := 10
    initialSocPct := 20, minSocPct := 20, roundTripEfficiency := rtEff
    maxChargeKw := mc, maxDischargeKw := md }

/-! ## Helper lemmas about the numeric operators -/

theorem clamp_nonneg (v hi : ℚ) : 0 ≤ clamp v 0 hi := le_max_left 0 _

theorem clamp_le_max (v hi : ℚ) : clamp v 0 hi ≤ max 0 v :=
  max_le_max (le_refl 0) (min_le_right hi v)

theorem clamp_le_hi (v : ℚ) {hi : ℚ} (h : 0 ≤ hi) : clamp v 0 hi ≤ hi :=
  max_le h (min_le_left hi v)

theorem clamp_zero_eq_zero (hi : ℚ) : clamp 0 0 hi = 0 := by
  have h : min hi 0 ≤ 0 := min_le_right hi 0
  simp [clamp]

/-! Basic facts about `batteryCharge`. -/

theorem charge_fst_nonneg (b : Battery) (r : ℚ) : 0 ≤ (batteryCharge b r).1 :=
  clamp_nonneg _ _

theorem charge_fst_le (b : Battery) {r : ℚ} (h : 0 ≤ r) : (batteryCharge b r).1 ≤ r :=
  le_trans (clamp_le_max _ _) (by simpa using h)

theorem charge_snd_soc (b : Battery) (r : ℚ) :
    (batteryCharge b r).2.socKwh = b.socKwh + (batteryCharge b r).1 * b.etaC := rfl

theorem charge_statics (b : Battery) (r : ℚ) :
    (batteryCharge b r).2.capacityKwh = b.capacityKwh ∧
    (batteryCharge b r).2.minSocKwh = b.minSocKwh ∧
    (batteryCharge b r).2.etaC = b.etaC ∧
    (batteryCharge b r).2.etaD = b.etaD ∧
    (batteryCharge b r).2.maxChargeKw = b.maxChargeKw ∧
    (batteryCharge b r).2.maxDischargeKw = b.maxDischargeKw :=
  ⟨rfl, rfl, rfl, rfl, rfl, rfl⟩

theorem charge_soc_ge (b : Battery) (r : ℚ) (he : 0 ≤ b.etaC) :
    b.socKwh ≤ (batteryCharge b r).2.socKwh := by
  rw [charge_snd_soc]
  have := mul_nonneg (charge_fst_nonneg b r) he
  linarith

theorem charge_soc_le_cap (b : Battery) (r : ℚ) (he : 0 < b.etaC)
    (hs : b.socKwh ≤ b.capacityKwh) :
    (batteryCharge b r).2.socKwh ≤ b.capacityKwh := by
  rw [charge_snd_soc]
  have hhd : 0 ≤ (b.capacityKwh - b.socKwh) / b.etaC :=
    div_nonneg (by linarith) he.le
  have h1 : (batteryCharge b r).1 ≤ (b.capacityKwh - b.socKwh) / b.etaC := by
    have : clamp r 0 (min b.maxChargeKw ((b.capacityKwh - b.socKwh) / b.etaC)) ≤
        (b.capacityKwh - b.socKwh) / b.etaC :=
      max_le hhd (le_trans (min_le_left _ _) (min_le_right _ _))
    exact this
  have h2 := mul_le_mul_of_nonneg_right h1 he.le
  rw [div_mul_cancel₀ _ (ne_of_gt he)] at h2
  linarith

theorem charge_Wf {b : Battery} (r : ℚ) (hb : b.Wf) : (batteryCharge b r).2.Wf := by
  obtain ⟨h1, h2, h3, h4⟩ := hb
  exact ⟨h1, h2, le_trans h3 (charge_soc_ge b r h1.le), charge_soc_le_cap b r h1 h4⟩

theorem charge_zero_fst (b : Battery) : (batteryCharge b 0).1 = 0 := by
  have h : min b.maxChargeKw ((b.capacityKwh - b.socKwh) / b.etaC) ≤
      min b.maxChargeKw ((b.capacityKwh - b.socKwh) / b.etaC) := le_refl _
  show clamp 0 0 _ = 0
  exact clamp_zero_eq_zero _

theorem charge_zero_soc (b : Battery) : (batteryCharge b 0).2.socKwh = b.socKwh := by
  rw [charge_snd_soc, charge_zero_fst]
  ring

theorem charge_snd_minSoc (b : Battery) (r : ℚ) :
    (batteryCharge b r).2.minSocKwh = b.minSocKwh := rfl

theorem discharge_snd_minSoc (b : Battery) (r : ℚ) :
    (batteryDischargeToLoad b r).2.minSocKwh = b.minSocKwh := rfl

/-! Basic facts about `batteryDischargeToLoad`. -/

theorem discharge_fst_nonneg (b : Battery) (r : ℚ) :
    0 ≤ (batteryDischargeToLoad b r).1 :=
  clamp_nonneg _ _

theorem discharge_fst_le (b : Battery) {r : ℚ} (h : 0 ≤ r) :
    (batteryDischargeToLoad b r).1 ≤ r :=
  le_trans (clamp_le_max _ _) (by simpa using h)

theorem discharge_snd_soc (b : Battery) (r : ℚ) :
    (batteryDischargeToLoad b r).2.socKwh =
      b.socKwh - (batteryDischargeToLoad b r).1 / b.etaD := rfl

theorem discharge_statics (b : Battery) (r : ℚ) :
    (batteryDischargeToLoad b r).2.capacityKwh = b.capacityKwh ∧
    (batteryDischargeToLoad b r).2.minSocKwh = b.minSocKwh ∧
    (batteryDischargeToLoad b r).2.etaC = b.etaC ∧
    (batteryDischargeToLoad b r).2.etaD = b.etaD ∧
    (batteryDischargeToLoad b r).2.maxChargeKw = b.maxChargeKw ∧
    (batteryDischargeToLoad b r).2.maxDischargeKw = b.maxDischargeKw :=
  ⟨rfl, rfl, rfl, rfl, rfl, rfl⟩

theorem discharge_soc_le (b : Battery) (r : ℚ) (hd : 0 < b.etaD) :
    (batteryDischargeToLoad b r).2.socKwh ≤ b.socKwh := by
  rw [discharge_snd_soc]
  have := div_nonneg (discharge_fst_nonneg b r) hd.le
  linarith

theorem discharge_soc_ge_min (b : Battery) (r : ℚ) (hd : 0 < b.etaD)
    (h : b.minSocKwh ≤ b.socKwh) :
    b.minSocKwh ≤ (batteryDischargeToLoad b r).2.socKwh := by
  rw [discharge_snd_soc]
  have hav : max 0 (b.socKwh - b.minSocKwh) = b.socKwh - b.minSocKwh :=
    max_eq_right (by linarith)
  have h1 : (batteryDischargeToLoad b r).1 ≤
      max 0 (b.socKwh - b.minSocKwh) * b.etaD := by
    show clamp r 0 (min b.maxDischargeKw (max 0 (b.socKwh - b.minSocKwh) * b.etaD)) ≤ _
    exact max_le (mul_nonneg (le_max_left 0 _) hd.le)
      (le_trans (min_le_left _ _) (min_le_right _ _))
  rw [hav] at h1
  have h2 : (batteryDischargeToLoad b r).1 / b.etaD ≤ b.socKwh - b.minSocKwh := by
    rw [div_le_iff₀ hd]
    exact h1
  linarith

theorem discharge_Wf {b : Battery} (r : ℚ) (hb : b.Wf) :
    (batteryDischargeToLoad b r).2.Wf := by
  obtain ⟨h1, h2, h3, h4⟩ := hb
  exact ⟨h1, h2, discharge_soc_ge_min b r h2 h3,
    le_trans (discharge_soc_le b r h2) h4⟩

theorem discharge_at_floor_fst (b : Battery) (r : ℚ) (h : b.socKwh = b.minSocKwh) :
    (batteryDischargeToLoad b r).1 = 0 := by
  show clamp r 0 (min b.maxDischargeKw (max 0 (b.socKwh - b.minSocKwh) * b.etaD)) = 0
  rw [h]
  simp [clamp]

theorem discharge_at_floor_soc (b : Battery) (r : ℚ) (h : b.socKwh = b.minSocKwh) :
    (batteryDischargeToLoad b r).2.socKwh = b.socKwh := by
  rw [discharge_snd_soc, discharge_at_floor_fst b r h]
  simp

/-! ## Facts about a single dispatch call -/

theorem dispatch_soc_eq (inputs : DispatchInputs) (b : Battery) (policy : Policy)
    (forecast : ℕ → HourInput) :
    (dispatchHour inputs b policy forecast).1.socKwh =
      (dispatchHour inputs b policy forecast).2.socKwh := rfl

theorem dispatch_statics (inputs : DispatchInputs) (b : Battery) (policy : Policy)
    (forecast : ℕ → HourInput) :
    (dispatchHour inputs b policy forecast).2.capacityKwh = b.capacityKwh ∧
    (dispatchHour inputs b policy forecast).2.minSocKwh = b.minSocKwh ∧
    (dispatchHour inputs b policy forecast).2.etaC = b.etaC ∧
    (dispatchHour inputs b policy forecast).2.etaD = b.etaD ∧
    (dispatchHour inputs b policy forecast).2.maxChargeKw = b.maxChargeKw ∧
    (dispatchHour inputs b policy forecast).2.maxDischargeKw = b.maxDischargeKw := by
  simp only [dispatchHour]
  split_ifs <;> exact ⟨rfl, rfl, rfl, rfl, rfl, rfl⟩

theorem dispatch_Wf (inputs : DispatchInputs) {b : Battery} (policy : Policy)
    (forecast : ℕ → HourInput) (hb : b.Wf) :
    (dispatchHour inputs b policy forecast).2.Wf := by
  simp only [dispatchHour]
  set rS0 := max 0 inputs.solarGenKw with hrS0
  set rL0 := max 0 inputs.loadKw with hrL0
  set s2l := min rS0 rL0 with hs2l
  set rS1 := rS0 - s2l with hrS1
  set rL1 := rL0 - s2l with hrL1
  set cR := if 0 < rS1 then batteryCharge b rS1 else ((0 : ℚ), b) with hcR
  set aD := policy.allowDischarge
    { hour := inputs.hour, isPeak := isPeakHour inputs.hour, battery := cR.2,
      inputs := inputs, forecast := forecast } with haD
  set dR := if 0 < rL1 ∧ aD = true then batteryDischargeToLoad cR.2 rL1
    else ((0 : ℚ), cR.2) with hdR
  set rL2 := rL1 - dR.1 with hrL2
  set g2l0 := if 0 < rL2 then min rL2 inputs.gridLimitKw else 0 with hg2l0
  set g2l := if isPeakHour inputs.hour = true ∧ g2l0 < 0.5 then (0.5 : ℚ) else g2l0 with hg2l
  set aG := policy.allowGridCharge
    { hour := inputs.hour, isPeak := isPeakHour inputs.hour, battery := dR.2,
      inputs := inputs, forecast := forecast } with haG
  set des := policy.desiredGridChargeKw
    { hour := inputs.hour, isPeak := isPeakHour inputs.hour, battery := dR.2,
      inputs := inputs, forecast := forecast } with hdes
  set hr := max 0 (inputs.gridLimitKw - g2l) with hhr
  set gCR := if aG = true then
      (if 0 < hr then batteryCharge dR.2 (min hr (max 0 des)) else ((0 : ℚ), dR.2))
    else ((0 : ℚ), dR.2) with hgCR
  have hcWf : cR.2.Wf := by
    rw [hcR]; split
    · exact charge_Wf _ hb
    · exact hb
  have hdWf : dR.2.Wf := by
    rw [hdR]; split
    · exact discharge_Wf _ hcWf
    · exact hcWf
  have hgWf : gCR.2.Wf := by
    rw [hgCR]; split
    · split
      · exact charge_Wf _ hdWf
      · exact hdWf
    · exact hdWf
  exact hgWf

/-- Master lemma about the flow quantities of a single dispatch call: all
unconditional flows are nonnegative, unmet load is always zero, the
grid-to-load draw is nonnegative whenever the grid limit is, and the total
grid import respects the limit whenever the limit is at least the 0.5 kW
peak tie-in floor. -/
theorem dispatch_flow_facts (inputs : DispatchInputs) (b : Battery) (policy : Policy)
    (forecast : ℕ → HourInput) :
    0 ≤ (dispatchHour inputs b policy forecast).1.solarToLoadKw ∧
    0 ≤ (dispatchHour inputs b policy forecast).1.solarToBattKw ∧
    0 ≤ (dispatchHour inputs b policy forecast).1.battToLoadKw ∧
    0 ≤ (dispatchHour inputs b policy forecast).1.dieselToLoadKw ∧
    0 ≤ (dispatchHour inputs b policy forecast).1.gridToBattKw ∧
    (dispatchHour inputs b policy forecast).1.unmetLoadKw = 0 ∧
    (0 ≤ inputs.gridLimitKw → 0 ≤ (dispatchHour inputs b policy forecast).1.gridToLoadKw) ∧
    (0.5 ≤ inputs.gridLimitKw →
      (dispatchHour inputs b policy forecast).1.gridImportKw ≤ inputs.gridLimitKw) := by
  simp only [dispatchHour]
  set rS0 := max 0 inputs.solarGenKw with hrS0
  set rL0 := max 0 inputs.loadKw with hrL0
  set s2l := min rS0 rL0 with hs2l
  set rS1 := rS0 - s2l with hrS1
  set rL1 := rL0 - s2l with hrL1
  set cR := if 0 < rS1 then batteryCharge b rS1 else ((0 : ℚ), b) with hcR
  set aD := policy.allowDischarge
    { hour := inputs.hour, isPeak := isPeakHour inputs.hour, battery := cR.2,
      inputs := inputs, forecast := forecast } with haD
  set dR := if 0 < rL1 ∧ aD = true then batteryDischargeToLoad cR.2 rL1
    else ((0 : ℚ), cR.2) with hdR
  set rL2 := rL1 - dR.1 with hrL2
  set g2l0 := if 0 < rL2 then min rL2 inputs.gridLimitKw else 0 with hg2l0
  set rem3 := rL2 - g2l0 with hrem3
  set g2l := if isPeakHour inputs.hour = true ∧ g2l0 < 0.5 then (0.5 : ℚ) else g2l0 with hg2l
  set aG := policy.allowGridCharge
    { hour := inputs.hour, isPeak := isPeakHour inputs.hour, battery := dR.2,
      inputs := inputs, forecast := forecast } with haG
  set des := policy.desiredGridChargeKw
    { hour := inputs.hour, isPeak := isPeakHour inputs.hour, battery := dR.2,
      inputs := inputs, forecast := forecast } with hdes
  set hr := max 0 (inputs.gridLimitKw - g2l) with hhr
  set gCR := if aG = true then
      (if 0 < hr then batteryCharge dR.2 (min hr (max 0 des)) else ((0 : ℚ), dR.2))
    else ((0 : ℚ), dR.2) with hgCR
  have hL0 : 0 ≤ rL0 := le_max_left 0 _
  have hS0 : 0 ≤ rS0 := le_max_left 0 _
  have hs2l_nonneg : 0 ≤ s2l := le_min hS0 hL0
  have hs2l_le : s2l ≤ rL0 := min_le_right _ _
  have hL1 : 0 ≤ rL1 := by rw [hrL1]; linarith
  have hdR1_nonneg : 0 ≤ dR.1 := by
    rw [hdR]; split
    · exact discharge_fst_nonneg _ _
    · exact le_refl 0
  have hdR1_le : dR.1 ≤ rL1 := by
    rw [hdR]; split
    · exact discharge_fst_le _ hL1
    · exact hL1
  have hL2 : 0 ≤ rL2 := by rw [hrL2]; linarith
  have hg2l0_le : g2l0 ≤ rL2 := by
    rw [hg2l0]; split
    · exact min_le_left _ _
    · exact hL2
  have hrem3_nonneg : 0 ≤ rem3 := by rw [hrem3]; linarith
  refine ⟨le_min hS0 hL0, ?_, hdR1_nonneg, ?_, ?_, ?_, ?_, ?_⟩
  · rw [hcR]; split
    · exact charge_fst_nonneg _ _
    · exact le_refl 0
  · split
    · next h => exact le_of_lt h
    · exact le_refl 0
  · rw [hgCR]; split
    · split
      · exact charge_fst_nonneg _ _
      · exact le_refl 0
    · exact le_refl 0
  · split
    · rfl
    · next h => linarith [hrem3_nonneg]
  · intro hgl
    rw [hg2l]; split
    · norm_num
    · rw [hg2l0]; split
      · exact le_min hL2 hgl
      · exact le_refl 0
  · intro hgl5
    have hg2l_le : g2l ≤ inputs.gridLimitKw := by
      rw [hg2l]; split
      · exact hgl5
      · rw [hg2l0]; split
        · exact min_le_right _ _
        · linarith
    have hgCR_le : gCR.1 ≤ max 0 (inputs.gridLimitKw - g2l) := by
      rw [hgCR]; split
      · split
        · next hpos =>
          have harg : 0 ≤ min hr (max 0 des) := le_min (le_of_lt hpos) (le_max_left 0 _)
          exact le_trans (le_trans (charge_fst_le _ harg) (min_le_left _ _)) (le_of_eq hhr)
        · exact le_max_left 0 _
      · exact le_max_left 0 _
    rcases le_or_lt (inputs.gridLimitKw - g2l) 0 with hcase | hcase
    · have : max 0 (inputs.gridLimitKw - g2l) = 0 := max_eq_left hcase
      have h1 : gCR.1 ≤ 0 := by rw [← this]; exact hgCR_le
      have h2 : 0 ≤ gCR.1 := by
        rw [hgCR]; split
        · split
          · exact charge_fst_nonneg _ _
          · exact le_refl 0
        · exact le_refl 0
      linarith
    · have : max 0 (inputs.gridLimitKw - g2l) = inputs.gridLimitKw - g2l :=
        max_eq_right (le_of_lt hcase)
      have h1 : gCR.1 ≤ inputs.gridLimitKw - g2l := by rw [← this]; exact hgCR_le
      linarith

/-- Claim C1.  For every hour produced by the dispatch algorithm, the
hour's cost equals `gridImportKw * tariff + dieselToLoadKw * dieselPrice`
with `gridImportKw = gridToLoadKw + gridToBattKw`, and the hour's CO2
equals `gridImportKw * co2PerGridKwh + dieselToLoadKw * co2PerDieselKwh`. -/
theorem dispatch_cost_co2_formula (inputs : DispatchInputs) (batt : Battery)
    (policy : Policy) (forecast : ℕ → HourInput) :
    (dispatchHour inputs batt policy forecast).1.gridImportKw =
        (dispatchHour inputs batt policy forecast).1.gridToLoadKw +
        (dispatchHour inputs batt policy forecast).1.gridToBattKw ∧
    (dispatchHour inputs batt policy forecast).1.cost =
        (dispatchHour inputs batt policy forecast).1.gridImportKw * inputs.tariff +
        (dispatchHour inputs batt policy forecast).1.dieselToLoadKw * inputs.dieselPrice ∧
    (dispatchHour inputs batt policy forecast).1.co2Kg =
        (dispatchHour inputs batt policy forecast).1.gridImportKw * inputs.co2GridPerKwh +
        (dispatchHour inputs batt policy forecast).1.dieselToLoadKw * inputs.co2DieselPerKwh := by
  refine ⟨rfl, rfl, rfl⟩

/-! ## Claim C2: SOC bounds over a day simulation -/

theorem createBatteryModel_Wf (sq : ℚ → ℚ) (p : BatteryParams)
    (hsq : ∀ x, 0.01 ≤ x → x ≤ 0.999 → 0 < sq x)
    (hcap : 0 ≤ p.capacityKwh) (hpct : p.minSocPct ≤ p.initialSocPct) :
    (createBatteryModel sq p).Wf := by
  have harg1 : (0.01 : ℚ) ≤ max 0.01 (min 0.999 p.roundTripEfficiency) := le_max_left _ _
  have harg2 : max 0.01 (min 0.999 p.roundTripEfficiency) ≤ 0.999 :=
    max_le (by norm_num) (min_le_left _ _)
  have heta : 0 < sq (max 0.01 (min 0.999 p.roundTripEfficiency)) := hsq _ harg1 harg2
  have hdiv : p.minSocPct / 100 * p.capacityKwh ≤ p.initialSocPct / 100 * p.capacityKwh := by
    have : p.minSocPct / 100 ≤ p.initialSocPct / 100 := by linarith
    exact mul_le_mul_of_nonneg_right this hcap
  refine ⟨heta, heta, ?_, clamp_le_hi _ hcap⟩
  exact max_le_max (le_refl 0) (min_le_min (le_refl p.capacityKwh) hdiv)

theorem simulateFrom_soc_bounds (d : ℕ → HourInput) (cfg : Config) (pol : Policy) :
    ∀ (n i : ℕ) (b : Battery), b.Wf →
      ∀ f ∈ simulateFrom d cfg pol i n b,
        b.minSocKwh ≤ f.socKwh ∧ f.socKwh ≤ b.capacityKwh := by
  intro n
  induction n with
  | zero =>
      intro i b _ f hf
      simp [simulateFrom] at hf
  | succ n ih =>
      intro i b hb f hf
      simp only [simulateFrom] at hf
      have hwf := dispatch_Wf (mkDispatchInputs (d i) cfg) pol d hb
      have hst := dispatch_statics (mkDispatchInputs (d i) cfg) b pol d
      rcases List.mem_cons.mp hf with h | h
      · subst h
        rw [dispatch_soc_eq]
        refine ⟨?_, ?_⟩
        · have := hwf.2.2.1
          rw [hst.2.1] at this
          exact this
        · have := hwf.2.2.2
          rw [hst.1] at this
          exact this
      · have := ih (i + 1) _ hwf f h
        rw [hst.2.1, hst.1] at this
        exact this

/-- Claim C2 counterexample.  The claim quantifies over ANY configuration,
but with `initialSocPct = 0` below `minSocPct = 10` the battery starts (and,
on an idle day, stays) strictly below the minimum-SOC floor, so the stated
invariant `minSocKwh ≤ socKwh` fails at hour 0. -/
theorem soc_bounds_cex :
    ((simulateDay idleDay cfgBelowFloor createBaselinePolicy sqHalf).hourly.getD 0
        defaultFlows).socKwh <
      (createBatteryModel sqHalf (batteryParamsOfConfig cfgBelowFloor)).minSocKwh := by
  have h : (simulateDay idleDay cfgBelowFloor createBaselinePolicy sqHalf).hourly =
      (dispatchHour (mkDispatchInputs (idleDay 0) cfgBelowFloor)
          (createBatteryModel sqHalf (batteryParamsOfConfig cfgBelowFloor))
          createBaselinePolicy idleDay).1 ::
        simulateFrom idleDay cfgBelowFloor createBaselinePolicy 1 23
          (dispatchHour (mkDispatchInputs (idleDay 0) cfgBelowFloor)
            (createBatteryModel sqHalf (batteryParamsOfConfig cfgBelowFloor))
            createBaselinePolicy idleDay).2 := rfl
  rw [h]
  norm_num [dispatchHour, batteryCharge, batteryDischargeToLoad, clamp,
    createBaselinePolicy, createBatteryModel, batteryParamsOfConfig, cfgBelowFloor,
    idleDay, mkDispatchInputs, isPeakHour, PEAK_HOURS, sqHalf, List.getD]

/-- Claim C2 (amended).  For every 24-hour simulation run over a
configuration with a nonnegative battery capacity and an initial SOC
percentage at least the minimum SOC percentage (and any positive-valued
square root), the recorded battery state of charge satisfies
`minSocKwh ≤ socKwh ≤ capacityKwh` at every simulated hour, for any
solar/load trace and any policy. -/
theorem soc_bounds_of_valid_config (d : ℕ → HourInput) (cfg : Config) (pol : Policy)
    (sq : ℚ → ℚ) (hsq : ∀ x, 0.01 ≤ x → x ≤ 0.999 → 0 < sq x)
    (hcap : 0 ≤ cfg.batteryCapacityKwh) (hpct : cfg.minSocPct ≤ cfg.initialSocPct) :
    ∀ f ∈ (simulateDay d cfg pol sq).hourly,
      (createBatteryModel sq (batteryParamsOfConfig cfg)).minSocKwh ≤ f.socKwh ∧
        f.socKwh ≤ cfg.batteryCapacityKwh := by
  intro f hf
  have hb : (createBatteryModel sq (batteryParamsOfConfig cfg)).Wf :=
    createBatteryModel_Wf sq _ hsq hcap hpct
  exact simulateFrom_soc_bounds d cfg pol 24 0 _ hb f hf

/-- Witness for the amended claim C2 at a concrete valid configuration. -/
theorem soc_bounds_of_valid_config_witness :
    (createBatteryModel sqHalf (batteryParamsOfConfig cfgValid)).minSocKwh ≤
        ((simulateDay idleDay cfgValid createBaselinePolicy sqHalf).hourly.getD 0
          defaultFlows).socKwh ∧
      ((simulateDay idleDay cfgValid createBaselinePolicy sqHalf).hourly.getD 0
          defaultFlows).socKwh ≤ cfgValid.batteryCapacityKwh := by
  obtain ⟨a, l, h⟩ : ∃ a l,
      (simulateDay idleDay cfgValid createBaselinePolicy sqHalf).hourly = a :: l :=
    ⟨_, _, rfl⟩
  have hmem : a ∈ (simulateDay idleDay cfgValid createBaselinePolicy sqHalf).hourly := by
    rw [h]
    exact List.mem_cons_self a l
  have hres := soc_bounds_of_valid_config idleDay cfgValid createBaselinePolicy sqHalf
    (by intro x h1 h2; norm_num [sqHalf]) (by norm_num [cfgValid])
    (by norm_num [cfgValid]) a hmem
  rw [h]
  simpa [List.getD] using hres

/-! ## Claim C3: determinism of simulateDay -/

/-- Claim C3.  `simulateDay` is deterministic: two calls on equal day inputs,
equal configuration, equal policy (and equal square-root function) produce
equal hourly traces and equal totals.  The embedding is a pure function of
exactly these arguments, mirroring that the source reads no clock and no
randomness. -/
theorem simulateDay_deterministic (d1 d2 : ℕ → HourInput) (c1 c2 : Config)
    (p1 p2 : Policy) (sq1 sq2 : ℚ → ℚ)
    (hd : d1 = d2) (hc : c1 = c2) (hp : p1 = p2) (hs : sq1 = sq2) :
    (simulateDay d1 c1 p1 sq1).hourly = (simulateDay d2 c2 p2 sq2).hourly ∧
      (simulateDay d1 c1 p1 sq1).totals = (simulateDay d2 c2 p2 sq2).totals := by
  subst hd; subst hc; subst hp; subst hs
  exact ⟨rfl, rfl⟩

/-! ## Claim C9: nonnegative flows and zero unmet load -/

/-- Claim C9 counterexample.  The claim quantifies over ANY inputs, but with
a negative grid limit (`gridLimitKw = -1`) and a deficit the source computes
`gridToLoadKw = min(remainingLoad, gridLimitKw) = -1 < 0`. -/
theorem flows_nonneg_cex :
    (dispatchHour negLimitInputs battFloor createBaselinePolicy idleDay).1.gridToLoadKw
      < 0 := by
  norm_num [dispatchHour, batteryCharge, batteryDischargeToLoad, clamp,
    createBaselinePolicy, negLimitInputs, battFloor, isPeakHour, PEAK_HOURS]

/-- Claim C9 (amended).  For every dispatch call whose grid limit is
nonnegative (and any battery state and policy), all seven flow quantities of
the produced `HourFlows` record are nonnegative and `unmetLoadKw = 0`. -/
theorem flows_nonneg_amended (inputs : DispatchInputs) (b : Battery) (policy : Policy)
    (forecast : ℕ → HourInput) (hgl : 0 ≤ inputs.gridLimitKw) :
    0 ≤ (dispatchHour inputs b policy forecast).1.solarToLoadKw ∧
    0 ≤ (dispatchHour inputs b policy forecast).1.solarToBattKw ∧
    0 ≤ (dispatchHour inputs b policy forecast).1.battToLoadKw ∧
    0 ≤ (dispatchHour inputs b policy forecast).1.gridToLoadKw ∧
    0 ≤ (dispatchHour inputs b policy forecast).1.gridToBattKw ∧
    0 ≤ (dispatchHour inputs b policy forecast).1.dieselToLoadKw ∧
    0 ≤ (dispatchHour inputs b policy forecast).1.gridImportKw ∧
    (dispatchHour inputs b policy forecast).1.unmetLoadKw = 0 := by
  obtain ⟨h1, h2, h3, h4, h5, h6, h7, _⟩ := dispatch_flow_facts inputs b policy forecast
  have himp : (dispatchHour inputs b policy forecast).1.gridImportKw =
      (dispatchHour inputs b policy forecast).1.gridToLoadKw +
        (dispatchHour inputs b policy forecast).1.gridToBattKw := rfl
  refine ⟨h1, h2, h3, h7 hgl, h5, h4, ?_, h6⟩
  rw [himp]
  have := h7 hgl
  linarith

/-- Witness for the amended claim C9 at concrete arguments. -/
theorem flows_nonneg_amended_witness :
    0 ≤ (dispatchHour (mkDispatchInputs (idleDay 0) cfgValid) battFloor
        createBaselinePolicy idleDay).1.solarToLoadKw ∧
    0 ≤ (dispatchHour (mkDispatchInputs (idleDay 0) cfgValid) battFloor
        createBaselinePolicy idleDay).1.solarToBattKw ∧
    0 ≤ (dispatchHour (mkDispatchInputs (idleDay 0) cfgValid) battFloor
        createBaselinePolicy idleDay).1.battToLoadKw ∧
    0 ≤ (dispatchHour (mkDispatchInputs (idleDay 0) cfgValid) battFloor
        createBaselinePolicy idleDay).1.gridToLoadKw ∧
    0 ≤ (dispatchHour (mkDispatchInputs (idleDay 0) cfgValid) battFloor
        createBaselinePolicy idleDay).1.gridToBattKw ∧
    0 ≤ (dispatchHour (mkDispatchInputs (idleDay 0) cfgValid) battFloor
        createBaselinePolicy idleDay).1.dieselToLoadKw ∧
    0 ≤ (dispatchHour (mkDispatchInputs (idleDay 0) cfgValid) battFloor
        createBaselinePolicy idleDay).1.gridImportKw ∧
    (dispatchHour (mkDispatchInputs (idleDay 0) cfgValid) battFloor
        createBaselinePolicy idleDay).1.unmetLoadKw = 0 :=
  flows_nonneg_amended (mkDispatchInputs (idleDay 0) cfgValid) battFloor
    createBaselinePolicy idleDay (by norm_num [mkDispatchInputs, cfgValid])

/-! ## Claim C10: grid import never exceeds the grid limit -/

/-- Claim C10.  For every dispatch call with nonnegative solar and load and a
grid limit of at least 0.5 kW, the hour's total grid import
`gridToLoadKw + gridToBattKw` never exceeds the grid limit, even when the
peak-hour minimum draw is applied and the policy grid-charges in the same
hour. -/
theorem grid_import_within_limit (inputs : DispatchInputs) (b : Battery)
    (policy : Policy) (forecast : ℕ → HourInput)
    (_hs : 0 ≤ inputs.solarGenKw) (_hl : 0 ≤ inputs.loadKw)
    (hgl : (0.5 : ℚ) ≤ inputs.gridLimitKw) :
    (dispatchHour inputs b policy forecast).1.gridImportKw ≤ inputs.gridLimitKw :=
  (dispatch_flow_facts inputs b policy forecast).2.2.2.2.2.2.2 hgl

/-- Witness for claim C10 at concrete arguments. -/
theorem grid_import_within_limit_witness :
    (dispatchHour (mkDispatchInputs (idleDay 0) cfgValid) battFloor
        createBaselinePolicy idleDay).1.gridImportKw ≤
      (mkDispatchInputs (idleDay 0) cfgValid).gridLimitKw :=
  grid_import_within_limit (mkDispatchInputs (idleDay 0) cfgValid) battFloor
    createBaselinePolicy idleDay (by norm_num [mkDispatchInputs, idleDay])
    (by norm_num [mkDispatchInputs, idleDay]) (by norm_num [mkDispatchInputs, cfgValid])

/-! ## Claim C6: the battery charge operator -/

/-- Claim C6.  For every battery state satisfying the data-model invariants
relevant here (positive charge efficiency, SOC at most capacity) and every
requested power, the actual charged power equals
`clamp(requested, 0, min(maxChargeRate, (capacity - soc) / chargeEfficiency))`,
the SOC is updated by `soc += actual * chargeEfficiency`, the actual power
is returned, and the resulting SOC is at most the capacity. -/
theorem batteryCharge_spec (b : Battery) (requestedKw : ℚ)
    (he : 0 < b.etaC) (hs : b.socKwh ≤ b.capacityKwh) :
    (batteryCharge b requestedKw).1 =
      clamp requestedKw 0 (min b.maxChargeKw ((b.capacityKwh - b.socKwh) / b.etaC)) ∧
    (batteryCharge b requestedKw).2.socKwh =
      b.socKwh + (batteryCharge b requestedKw).1 * b.etaC ∧
    (batteryCharge b requestedKw).2.socKwh ≤ b.capacityKwh :=
  ⟨rfl, rfl, charge_soc_le_cap b requestedKw he hs⟩

/-- Witness for claim C6 at a concrete battery state and request. -/
theorem batteryCharge_spec_witness :
    (batteryCharge battFloor 3).1 =
      clamp 3 0 (min battFloor.maxChargeKw
        ((battFloor.capacityKwh - battFloor.socKwh) / battFloor.etaC)) ∧
    (batteryCharge battFloor 3).2.socKwh =
      battFloor.socKwh + (batteryCharge battFloor 3).1 * battFloor.etaC ∧
    (batteryCharge battFloor 3).2.socKwh ≤ battFloor.capacityKwh :=
  batteryCharge_spec battFloor 3 (by norm_num [battFloor]) (by norm_num [battFloor])

/-! ## Claim C8: construction of invalid battery configurations -/

/-- Claim C8 (evidence of the code bug).  The source `createBatteryModel`
performs no validation at all: on a configuration with capacity -5 (not
positive), round-trip efficiency 2 (outside (0,1]) and a minimum SOC
percentage of 150, it silently returns a clamped model (SOC and floor
clamped to 0, efficiency clamped to 0.999 before the square root) instead
of failing fast as the spec requires. -/
theorem createBatteryModel_accepts_invalid :
    (createBatteryModel sqHalf invalidParams).capacityKwh = -5 ∧
    (createBatteryModel sqHalf invalidParams).socKwh = 0 ∧
    (createBatteryModel sqHalf invalidParams).minSocKwh = 0 ∧
    (createBatteryModel sqHalf invalidParams).etaC = 1/2 := by
  norm_num [createBatteryModel, invalidParams, clamp, sqHalf]

/-! ## Claim C7: the smart policy's desired grid-charge power -/

/-- If the forecasted peak-hour deficit from some index is zero and the grid
limit is nonnegative, the forecasted diesel risk from that index is zero. -/
theorem dieselRisk_zero (d : ℕ → HourInput) (cfg : Config) (k : ℕ)
    (hgl : 0 ≤ cfg.gridLimitKw) (h : expectedPeakDeficitKwhFrom d k = 0) :
    expectedDieselRiskKwhFrom d cfg k = 0 := by
  have hnn : ∀ i ∈ Finset.range 24,
      0 ≤ (if k ≤ i ∧ isPeakHour i = true then
        max 0 ((d i).loadKw - (d i).solarGenKw) else 0) := by
    intro i _
    split
    · exact le_max_left _ _
    · exact le_refl 0
  have hz := (Finset.sum_eq_zero_iff_of_nonneg hnn).mp h
  apply Finset.sum_eq_zero
  intro i hi
  have hzi := hz i hi
  split
  · next hc =>
    rw [if_pos hc] at hzi
    rw [hzi]
    apply max_eq_left
    linarith
  · rfl

/-- Claim C7 counterexample.  On a day with a real deficit and a sufficient
price gap, at a context whose SOC (5 kWh) exceeds the computed target SOC
(0 kWh), the source returns `min(max(0, target - soc), maxChargeRate) = 0`,
not the claimed `min(target - soc, maxChargeRate) = -5`. -/
theorem desiredGridChargeKw_cex :
    (createSmartPolicy deficitDay cfgValid).desiredGridChargeKw ctxHalfFull = 0 ∧
    desiredGridChargeKwClaimed deficitDay cfgValid ctxHalfFull = -5 := by
  have hD : totalDailyDeficitKwh deficitDay = 5 := by
    norm_num [totalDailyDeficitKwh, Finset.sum_range_succ, deficitDay]
  have hP2 : expectedPeakDeficitKwhFrom deficitDay 2 = 0 := by
    norm_num [expectedPeakDeficitKwhFrom, Finset.sum_range_succ, deficitDay,
      isPeakHour, PEAK_HOURS]
  have hP1 : expectedPeakDeficitKwhFrom deficitDay 1 = 0 := by
    norm_num [expectedPeakDeficitKwhFrom, Finset.sum_range_succ, deficitDay,
      isPeakHour, PEAK_HOURS]
  have hR2 : expectedDieselRiskKwhFrom deficitDay cfgValid 2 = 0 :=
    dieselRisk_zero deficitDay cfgValid 2 (by norm_num [cfgValid]) hP2
  have hR1 : expectedDieselRiskKwhFrom deficitDay cfgValid 1 = 0 :=
    dieselRisk_zero deficitDay cfgValid 1 (by norm_num [cfgValid]) hP1
  norm_num [cfgValid] at hR1 hR2
  constructor
  · simp only [createSmartPolicy, ctxHalfFull, mkDispatchInputs, deficitDay]
    norm_num [hD, hP2, hR2, clamp, cfgValid]
  · simp only [desiredGridChargeKwClaimed, ctxHalfFull, mkDispatchInputs, deficitDay]
    norm_num [hD, hP1, hR1, clamp, cfgValid]

/-- Claim C7 (amended).  For every day, configuration and context, the smart
policy's `desiredGridChargeKw` returns 0 when the day has no real deficit or
the peak-vs-current tariff gap is below the 0.5 threshold, and otherwise
returns `min(max(0, target - soc), maxChargeRate)` where the target SOC is
`clamp(0.6 * peak deficit from the NEXT hour + 0.8 * diesel risk from the
NEXT hour, 0, 0.9 * capacity)`. -/
theorem desiredGridChargeKw_amended (d : ℕ → HourInput) (cfg : Config)
    (ctx : PolicyCtx) :
    (createSmartPolicy d cfg).desiredGridChargeKw ctx =
      desiredGridChargeKwAmended d cfg ctx := rfl

/-- Witness for claim C3 at concrete arguments. -/
theorem simulateDay_deterministic_witness :
    (simulateDay idleDay cfgValid createBaselinePolicy sqHalf).hourly =
        (simulateDay idleDay cfgValid createBaselinePolicy sqHalf).hourly ∧
      (simulateDay idleDay cfgValid createBaselinePolicy sqHalf).totals =
        (simulateDay idleDay cfgValid createBaselinePolicy sqHalf).totals :=
  simulateDay_deterministic idleDay idleDay cfgValid cfgValid createBaselinePolicy
    createBaselinePolicy sqHalf sqHalf rfl rfl rfl rfl

/-! ## Claim C4: the zero-deficit scenario -/

/-- One dispatch hour under a zero-deficit input (`load <= solar`) and a
policy that never grid-charges: no diesel, grid import is exactly the 0.5 kW
peak tie-in floor during peak hours and zero otherwise, cost is the
corresponding tariff charge, and the SOC never decreases. -/
theorem zero_deficit_hour (inputs : DispatchInputs) (b : Battery) (pol : Policy)
    (fc : ℕ → HourInput) (hpol : ∀ ctx, pol.allowGridCharge ctx = false)
    (he : 0 ≤ b.etaC) (hsl : inputs.loadKw ≤ inputs.solarGenKw) :
    (dispatchHour inputs b pol fc).1.dieselToLoadKw = 0 ∧
    (dispatchHour inputs b pol fc).1.gridImportKw =
      (if isPeakHour inputs.hour = true then (1/2 : ℚ) else 0) ∧
    (dispatchHour inputs b pol fc).1.cost =
      (if isPeakHour inputs.hour = true then (1/2 : ℚ) * inputs.tariff else 0) ∧
    b.socKwh ≤ (dispatchHour inputs b pol fc).2.socKwh ∧
    (dispatchHour inputs b pol fc).1.socKwh = (dispatchHour inputs b pol fc).2.socKwh ∧
    (dispatchHour inputs b pol fc).2.etaC = b.etaC := by
  simp only [dispatchHour]
  set rS0 := max 0 inputs.solarGenKw with hrS0
  set rL0 := max 0 inputs.loadKw with hrL0
  set s2l := min rS0 rL0 with hs2l
  set rS1 := rS0 - s2l with hrS1
  set rL1 := rL0 - s2l with hrL1
  set cR := if 0 < rS1 then batteryCharge b rS1 else ((0 : ℚ), b) with hcR
  set aD := pol.allowDischarge
    { hour := inputs.hour, isPeak := isPeakHour inputs.hour, battery := cR.2,
      inputs := inputs, forecast := fc } with haD
  set dR := if 0 < rL1 ∧ aD = true then batteryDischargeToLoad cR.2 rL1
    else ((0 : ℚ), cR.2) with hdR
  set rL2 := rL1 - dR.1 with hrL2
  set g2l0 := if 0 < rL2 then min rL2 inputs.gridLimitKw else 0 with hg2l0
  set rem3 := rL2 - g2l0 with hrem3
  set g2l := if isPeakHour inputs.hour = true ∧ g2l0 < 0.5 then (0.5 : ℚ) else g2l0
    with hg2l
  set aG := pol.allowGridCharge
    { hour := inputs.hour, isPeak := isPeakHour inputs.hour, battery := dR.2,
      inputs := inputs, forecast := fc } with haG
  set des := pol.desiredGridChargeKw
    { hour := inputs.hour, isPeak := isPeakHour inputs.hour, battery := dR.2,
      inputs := inputs, forecast := fc } with hdes
  set hr := max 0 (inputs.gridLimitKw - g2l) with hhr
  set gCR := if aG = true then
      (if 0 < hr then batteryCharge dR.2 (min hr (max 0 des)) else ((0 : ℚ), dR.2))
    else ((0 : ℚ), dR.2) with hgCR
  have hle : rL0 ≤ rS0 := max_le_max (le_refl 0) hsl
  have hmin : s2l = rL0 := min_eq_right hle
  have hrl1 : rL1 = 0 := by rw [hrL1, hmin]; ring
  have hnd : ¬ (0 < rL1 ∧ aD = true) := by
    rw [hrl1]
    rintro ⟨h, _⟩
    exact lt_irrefl 0 h
  have hdR' : dR = (0, cR.2) := by rw [hdR, if_neg hnd]
  have hrl2 : rL2 = 0 := by rw [hrL2, hdR', hrl1]; norm_num
  have hg2l0' : g2l0 = 0 := by
    rw [hg2l0, hrl2]
    simp
  have hrem3' : rem3 = 0 := by rw [hrem3, hrl2, hg2l0']; ring
  have haG' : aG = false := by rw [haG]; exact hpol _
  have hgCR' : gCR = (0, dR.2) := by
    rw [hgCR, haG']
    simp
  have hsoc2 : b.socKwh ≤ cR.2.socKwh := by
    rw [hcR]
    split
    · exact charge_soc_ge b _ he
    · exact le_refl _
  have hetaC2 : cR.2.etaC = b.etaC := by
    rw [hcR]
    split
    · rfl
    · rfl
  refine ⟨?_, ?_, ?_, ?_, trivial, ?_⟩
  · rw [hrem3']
    simp
  · rw [hgCR', hg2l, hg2l0']
    by_cases hpk : isPeakHour inputs.hour = true
    all_goals norm_num [hpk]
  · rw [hgCR', hg2l, hg2l0', hrem3']
    by_cases hpk : isPeakHour inputs.hour = true
    all_goals norm_num [hpk]
  · rw [hgCR', hdR']
    exact hsoc2
  · rw [hgCR', hdR']
    exact hetaC2

/-- Peeling the first term off a sum of `g (i + k)` over `range (n + 1)`. -/
theorem sum_range_shift (n i : ℕ) (g : ℕ → ℚ) :
    Finset.sum (Finset.range (n + 1)) (fun k => g (i + k)) =
      g i + Finset.sum (Finset.range n) (fun k => g (i + 1 + k)) := by
  rw [Finset.sum_range_succ']
  have hidx : ∀ k, i + (k + 1) = i + 1 + k := fun k => by omega
  rw [Finset.sum_congr rfl
    (fun k _ => by rw [hidx k] :
      ∀ k ∈ Finset.range n, g (i + (k + 1)) = g (i + 1 + k))]
  rw [Nat.add_zero]
  exact add_comm _ _

theorem sum_range_shift_half (n i : ℕ) :
    Finset.sum (Finset.range (n + 1))
        (fun k => if isPeakHour (i + k) = true then (1/2 : ℚ) else 0) =
      (if isPeakHour i = true then (1/2 : ℚ) else 0) +
        Finset.sum (Finset.range n)
          (fun k => if isPeakHour (i + 1 + k) = true then (1/2 : ℚ) else 0) :=
  sum_range_shift n i fun m => if isPeakHour m = true then (1/2 : ℚ) else 0

theorem sum_range_shift_cost (d : ℕ → HourInput) (n i : ℕ) :
    Finset.sum (Finset.range (n + 1))
        (fun k => if isPeakHour (i + k) = true then (1/2 : ℚ) * (d (i + k)).tariff
          else 0) =
      (if isPeakHour i = true then (1/2 : ℚ) * (d i).tariff else 0) +
        Finset.sum (Finset.range n)
          (fun k => if isPeakHour (i + 1 + k) = true then
            (1/2 : ℚ) * (d (i + 1 + k)).tariff else 0) :=
  sum_range_shift n i fun m => if isPeakHour m = true then (1/2 : ℚ) * (d m).tariff
    else 0

/-- Running the day loop over zero-deficit hours with a policy that never
grid-charges: total diesel is zero, grid import accumulates exactly the
0.5 kW peak floor, cost accumulates the corresponding tariff charges, and
the recorded SOC trace is nondecreasing. -/
theorem zero_deficit_run (d : ℕ → HourInput) (cfg : Config) (pol : Policy)
    (hpol : ∀ ctx, pol.allowGridCharge ctx = false) :
    ∀ (n i : ℕ) (b : Battery), 0 ≤ b.etaC →
      (∀ j, i ≤ j → j < i + n → (d j).hour = j ∧ (d j).loadKw ≤ (d j).solarGenKw) →
      ((simulateFrom d cfg pol i n b).map fun f => f.dieselToLoadKw).sum = 0 ∧
      ((simulateFrom d cfg pol i n b).map fun f => f.gridImportKw).sum =
        Finset.sum (Finset.range n)
          (fun k => if isPeakHour (i + k) = true then (1/2 : ℚ) else 0) ∧
      ((simulateFrom d cfg pol i n b).map fun f => f.cost).sum =
        Finset.sum (Finset.range n)
          (fun k => if isPeakHour (i + k) = true then (1/2 : ℚ) * (d (i + k)).tariff
            else 0) ∧
      List.Chain' (fun a c => a ≤ c)
        (b.socKwh :: (simulateFrom d cfg pol i n b).map fun f => f.socKwh) := by
  intro n
  induction n with
  | zero =>
      intro i b _ _
      simp [simulateFrom]
  | succ n ih =>
      intro i b he hd
      have hd_i := hd i (le_refl i) (by omega)
      have hsl : (mkDispatchInputs (d i) cfg).loadKw ≤
          (mkDispatchInputs (d i) cfg).solarGenKw := hd_i.2
      obtain ⟨hdiesel, hgrid, hcost, hsocle, hsoceq, hetaC⟩ :=
        zero_deficit_hour (mkDispatchInputs (d i) cfg) b pol d hpol he hsl
      have hhour : (mkDispatchInputs (d i) cfg).hour = i := hd_i.1
      obtain ⟨t1, t2, t3, t4⟩ := ih (i + 1)
        (dispatchHour (mkDispatchInputs (d i) cfg) b pol d).2
        (by rw [hetaC]; exact he)
        (fun j h1 h2 => hd j (by omega) (by omega))
      simp only [simulateFrom]
      refine ⟨?_, ?_, ?_, ?_⟩
      · simp [hdiesel, t1]
      · simp only [List.map_cons, List.sum_cons, hgrid, t2, hhour]
        rw [sum_range_shift_half]
      · simp only [List.map_cons, List.sum_cons, hcost, t3, hhour]
        rw [sum_range_shift_cost]
        rfl
      · simp only [List.map_cons]
        rw [List.chain'_cons]
        constructor
        · rw [hsoceq]
          exact hsocle
        · rw [hsoceq]
          exact t4

/-- Claim C4 counterexample.  On a day with solar = load = 1 kW every hour
(zero deficit) and the battery starting at 50%, the peak-hour 0.5 kW grid
tie-in floor still forces 0.5 kW of grid import during each of the six peak
hours, so `gridKwh = 3`, not 0 (and hence nonzero cost). -/
theorem zero_deficit_cex :
    (simulateDay flatDay cfgValid createBaselinePolicy sqHalf).totals.gridKwh = 3 ∧
    ¬ ((simulateDay flatDay cfgValid createBaselinePolicy sqHalf).totals.gridKwh = 0 ∧
       (simulateDay flatDay cfgValid createBaselinePolicy sqHalf).totals.cost = 0) := by
  have he : 0 ≤ (createBatteryModel sqHalf (batteryParamsOfConfig cfgValid)).etaC := by
    norm_num [createBatteryModel, sqHalf]
  have hd : ∀ j, 0 ≤ j → j < 0 + 24 →
      (flatDay j).hour = j ∧ (flatDay j).loadKw ≤ (flatDay j).solarGenKw := by
    intro j _ _
    exact ⟨rfl, by norm_num [flatDay]⟩
  obtain ⟨-, t2, -, -⟩ := zero_deficit_run flatDay cfgValid createBaselinePolicy
    (fun _ => rfl) 24 0 (createBatteryModel sqHalf (batteryParamsOfConfig cfgValid)) he hd
  have h3 : (simulateDay flatDay cfgValid createBaselinePolicy sqHalf).totals.gridKwh
      = 3 := by
    simp only [simulateDay, totalsOf]
    rw [t2]
    norm_num [Finset.sum_range_succ, isPeakHour, PEAK_HOURS]
  refine ⟨h3, ?_⟩
  rintro ⟨h0, -⟩
  rw [h3] at h0
  norm_num at h0

/-- Claim C4 (amended).  For every day whose inputs have hour fields 0..23
and solar at least load at every hour, with the battery starting at 50% SOC
and the policy being the baseline or the smart policy built over that same
day: diesel is zero, grid import equals exactly the 0.5 kW peak tie-in floor
over the six peak hours (`gridKwh = 3`), the cost is the corresponding sum
of half-tariffs over the peak hours, and the battery SOC never decreases
over the day. -/
theorem zero_deficit_amended (d : ℕ → HourInput) (cfg : Config) (pol : Policy)
    (sq : ℚ → ℚ)
    (hd : ∀ i, i < 24 → (d i).hour = i ∧ (d i).loadKw ≤ (d i).solarGenKw)
    (hsq : ∀ x, 0 ≤ sq x)
    (_hinit : cfg.initialSocPct = 50)
    (hpol : pol = createBaselinePolicy ∨ pol = createSmartPolicy d cfg) :
    (simulateDay d cfg pol sq).totals.dieselKwh = 0 ∧
    (simulateDay d cfg pol sq).totals.gridKwh = 3 ∧
    (simulateDay d cfg pol sq).totals.cost =
      Finset.sum (Finset.range 24)
        (fun k => if isPeakHour k = true then (1/2 : ℚ) * (d k).tariff else 0) ∧
    List.Chain' (fun a c => a ≤ c)
      ((createBatteryModel sq (batteryParamsOfConfig cfg)).socKwh ::
        (simulateDay d cfg pol sq).hourly.map fun f => f.socKwh) := by
  have hpolU : ∀ ctx, pol.allowGridCharge ctx = false := by
    rcases hpol with rfl | rfl
    · intro ctx
      rfl
    · intro ctx
      have htot : totalDailyDeficitKwh d = 0 := by
        apply Finset.sum_eq_zero
        intro i hi
        have := (hd i (Finset.mem_range.mp hi)).2
        exact max_eq_left (by linarith)
      simp [createSmartPolicy, htot]
      norm_num
  obtain ⟨t1, t2, t3, t4⟩ := zero_deficit_run d cfg pol hpolU 24 0
    (createBatteryModel sq (batteryParamsOfConfig cfg)) (hsq _)
    (fun j h1 h2 => hd j (by omega))
  refine ⟨?_, ?_, ?_, ?_⟩
  · simp only [simulateDay, totalsOf]
    exact t1
  · simp only [simulateDay, totalsOf]
    rw [t2]
    norm_num [Finset.sum_range_succ, isPeakHour, PEAK_HOURS]
  · simp only [simulateDay, totalsOf]
    rw [t3]
    simp only [Nat.zero_add]
  · simp only [simulateDay]
    exact t4

/-- Witness for the amended claim C4 at a concrete zero-deficit day. -/
theorem zero_deficit_amended_witness :
    (simulateDay flatDay cfgValid createBaselinePolicy sqHalf).totals.dieselKwh = 0 ∧
    (simulateDay flatDay cfgValid createBaselinePolicy sqHalf).totals.gridKwh = 3 ∧
    (simulateDay flatDay cfgValid createBaselinePolicy sqHalf).totals.cost =
      Finset.sum (Finset.range 24)
        (fun k => if isPeakHour k = true then (1/2 : ℚ) * (flatDay k).tariff else 0) ∧
    List.Chain' (fun a c => a ≤ c)
      ((createBatteryModel sqHalf (batteryParamsOfConfig cfgValid)).socKwh ::
        (simulateDay flatDay cfgValid createBaselinePolicy sqHalf).hourly.map
          fun f => f.socKwh) :=
  zero_deficit_amended flatDay cfgValid createBaselinePolicy sqHalf
    (fun i _ => ⟨rfl, by norm_num [flatDay]⟩)
    (fun x => by norm_num [sqHalf])
    (by norm_num [cfgValid])
    (Or.inl rfl)

/-! ## Claim C5: the blackout scenario -/

/-- One dispatch hour of the blackout scenario: with the battery at its
2 kWh floor, the 2 kW load is served entirely by the grid (within the 5 kW
limit), costing 20 at the flat tariff of 10, with no diesel and the SOC
pinned at the floor.  Holds for the baseline policy and for the smart
policy built over the blackout day. -/
theorem blackout_hour (rtEff mc md dp cg cd : ℚ) (pol : Policy)
    (hpol : pol = createBaselinePolicy ∨
      pol = createSmartPolicy blackoutDay (cfgBlackout rtEff mc md dp cg cd))
    (i : ℕ) (b : Battery) (hsoc : b.socKwh = 2) (hmin : b.minSocKwh = 2) :
    (dispatchHour (mkDispatchInputs (blackoutDay i) (cfgBlackout rtEff mc md dp cg cd))
        b pol blackoutDay).1.gridImportKw = 2 ∧
    (dispatchHour (mkDispatchInputs (blackoutDay i) (cfgBlackout rtEff mc md dp cg cd))
        b pol blackoutDay).1.cost = 20 ∧
    (dispatchHour (mkDispatchInputs (blackoutDay i) (cfgBlackout rtEff mc md dp cg cd))
        b pol blackoutDay).1.dieselToLoadKw = 0 ∧
    (dispatchHour (mkDispatchInputs (blackoutDay i) (cfgBlackout rtEff mc md dp cg cd))
        b pol blackoutDay).1.socKwh = 2 ∧
    (dispatchHour (mkDispatchInputs (blackoutDay i) (cfgBlackout rtEff mc md dp cg cd))
        b pol blackoutDay).2.socKwh = 2 ∧
    (dispatchHour (mkDispatchInputs (blackoutDay i) (cfgBlackout rtEff mc md dp cg cd))
        b pol blackoutDay).2.minSocKwh = 2 := by
  have hfloor : b.socKwh = b.minSocKwh := by rw [hsoc, hmin]
  have hD48 : totalDailyDeficitKwh blackoutDay = 48 := by
    norm_num [totalDailyDeficitKwh, Finset.sum_range_succ, blackoutDay, max_def]
  rcases hpol with rfl | rfl
  · norm_num [dispatchHour, mkDispatchInputs, blackoutDay, cfgBlackout,
      createBaselinePolicy, max_def, min_def, hsoc, hmin,
      discharge_at_floor_fst, discharge_at_floor_soc, discharge_snd_minSoc]
  · cases hpk : isPeakHour i
    all_goals norm_num [dispatchHour, mkDispatchInputs, blackoutDay, cfgBlackout,
      createSmartPolicy, max_def, min_def, hsoc, hmin, hpk, hD48,
      discharge_at_floor_fst, discharge_at_floor_soc, discharge_snd_minSoc,
      charge_zero_fst, charge_zero_soc, charge_snd_minSoc]

/-- Running the day loop of the blackout scenario from a battery at the
floor: grid import accumulates 2 kWh per hour, cost 20 per hour, no diesel,
and every recorded SOC equals the 2 kWh floor. -/
theorem blackout_run (rtEff mc md dp cg cd : ℚ) (pol : Policy)
    (hpol : pol = createBaselinePolicy ∨
      pol = createSmartPolicy blackoutDay (cfgBlackout rtEff mc md dp cg cd)) :
    ∀ (n i : ℕ) (b : Battery), b.socKwh = 2 → b.minSocKwh = 2 →
      ((simulateFrom blackoutDay (cfgBlackout rtEff mc md dp cg cd) pol i n b).map
        fun f => f.gridImportKw).sum = 2 * (n : ℚ) ∧
      ((simulateFrom blackoutDay (cfgBlackout rtEff mc md dp cg cd) pol i n b).map
        fun f => f.cost).sum = 20 * (n : ℚ) ∧
      ((simulateFrom blackoutDay (cfgBlackout rtEff mc md dp cg cd) pol i n b).map
        fun f => f.dieselToLoadKw).sum = 0 ∧
      ∀ f ∈ simulateFrom blackoutDay (cfgBlackout rtEff mc md dp cg cd) pol i n b,
        f.socKwh = 2 := by
  intro n
  induction n with
  | zero =>
      intro i b _ _
      simp [simulateFrom]
  | succ n ih =>
      intro i b hsoc hmin
      obtain ⟨hg, hc, hz, hs, hs2, hm2⟩ :=
        blackout_hour rtEff mc md dp cg cd pol hpol i b hsoc hmin
      obtain ⟨t1, t2, t3, t4⟩ := ih (i + 1)
        (dispatchHour (mkDispatchInputs (blackoutDay i)
          (cfgBlackout rtEff mc md dp cg cd)) b pol blackoutDay).2 hs2 hm2
      simp only [simulateFrom]
      refine ⟨?_, ?_, ?_, ?_⟩
      · simp only [List.map_cons, List.sum_cons, hg, t1]
        push_cast
        ring
      · simp only [List.map_cons, List.sum_cons, hc, t2]
        push_cast
        ring
      · simp only [List.map_cons, List.sum_cons, hz, t3]
        norm_num
      · intro f hf
        rcases List.mem_cons.mp hf with h | h
        · rw [h]
          exact hs
        · exact t4 f h

/-- Claim C5.  Blackout scenario: zero solar for all 24 hours, constant 2 kW
load, 10 kWh battery with initial SOC 20% equal to the minimum-SOC floor,
5 kW grid limit, flat tariff of 10: `simulateDay` yields
`gridKwh = 48`, `cost = 480`, `dieselKwh = 0`, and the battery SOC equals
the 2 kWh floor at every hour — for the baseline policy and for the smart
policy built over the same day, any efficiency/rate/price parameters and
any square-root function. -/
theorem blackout_scenario (rtEff mc md dp cg cd : ℚ) (pol : Policy) (sq : ℚ → ℚ)
    (hpol : pol = createBaselinePolicy ∨
      pol = createSmartPolicy blackoutDay (cfgBlackout rtEff mc md dp cg cd)) :
    (simulateDay blackoutDay (cfgBlackout rtEff mc md dp cg cd) pol sq).totals.gridKwh
      = 48 ∧
    (simulateDay blackoutDay (cfgBlackout rtEff mc md dp cg cd) pol sq).totals.cost
      = 480 ∧
    (simulateDay blackoutDay (cfgBlackout rtEff mc md dp cg cd) pol sq).totals.dieselKwh
      = 0 ∧
    (createBatteryModel sq
      (batteryParamsOfConfig (cfgBlackout rtEff mc md dp cg cd))).minSocKwh = 2 ∧
    ∀ f ∈ (simulateDay blackoutDay (cfgBlackout rtEff mc md dp cg cd) pol sq).hourly,
      f.socKwh = 2 := by
  have hb0s : (createBatteryModel sq
      (batteryParamsOfConfig (cfgBlackout rtEff mc md dp cg cd))).socKwh = 2 := by
    norm_num [createBatteryModel, batteryParamsOfConfig, cfgBlackout, clamp,
      max_def, min_def]
  have hb0m : (createBatteryModel sq
      (batteryParamsOfConfig (cfgBlackout rtEff mc md dp cg cd))).minSocKwh = 2 := by
    norm_num [createBatteryModel, batteryParamsOfConfig, cfgBlackout, clamp,
      max_def, min_def]
  obtain ⟨t1, t2, t3, t4⟩ := blackout_run rtEff mc md dp cg cd pol hpol 24 0
    (createBatteryModel sq (batteryParamsOfConfig (cfgBlackout rtEff mc md dp cg cd)))
    hb0s hb0m
  refine ⟨?_, ?_, ?_, hb0m, ?_⟩
  · simp only [simulateDay, totalsOf]
    rw [t1]
    norm_num
  · simp only [simulateDay, totalsOf]
    rw [t2]
    norm_num
  · simp only [simulateDay, totalsOf]
    exact t3
  · simp only [simulateDay]
    exact t4

/-- Witness for claim C5 at concrete parameter values (baseline policy,
90% round-trip efficiency, 5 kW rates, diesel price 25, CO2 factors). -/
theorem blackout_scenario_witness :
    (simulateDay blackoutDay (cfgBlackout (9/10) 5 5 25 (1/2) (4/5))
      createBaselinePolicy sqHalf).totals.gridKwh = 48 ∧
    (simulateDay blackoutDay (cfgBlackout (9/10) 5 5 25 (1/2) (4/5))
      createBaselinePolicy sqHalf).totals.cost = 480 ∧
    (simulateDay blackoutDay (cfgBlackout (9/10) 5 5 25 (1/2) (4/5))
      createBaselinePolicy sqHalf).totals.dieselKwh = 0 ∧
    (createBatteryModel sqHalf
      (batteryParamsOfConfig (cfgBlackout (9/10) 5 5 25 (1/2) (4/5)))).minSocKwh
      = 2 := by
  obtain ⟨h1, h2, h3, h4, -⟩ := blackout_scenario (9/10) 5 5 25 (1/2) (4/5)
    createBaselinePolicy sqHalf (Or.inl rfl)
  exact ⟨h1, h2, h3, h4⟩

end Microgrid
